import Mathlib

/-!
Verification of the `SKFunction` invocation engine of
`src/python/semantic_kernel/orchestration/sk_function.py`, together with the
collaborating data model (`ContextVariables`, `SKContext`, prompt templates,
error types).  The collaborators' modules are not part of the staged sources,
so they are modelled from the specification (spec.md); each such definition
carries a doc comment starting `Modelled from the spec:`.  Python exceptions
are embedded as `Except`, in-place mutation as explicit state passing, and
Python `async` is dropped (all awaits are sequential).
-/

/-- Modelled from the spec: error codes of `KernelException`
(`semantic_kernel/kernel_exception.py` is not among the staged sources; the
spec calls these "coded exceptions").  Only the code the staged sources
mention is needed. -/
inductive KernelErrorCode where
  | InvalidFunctionType
  | UnknownError
deriving Repr, DecidableEq

/-- A Python exception value as the engine observes it: `ValueError` (raised
by `Verify.not_null`), `KernelException` (code plus message), or any other
runtime exception carrying a message.  `Exn.message` plays the role of
`str(e)`. -/
inductive Exn where
  | valueError (msg : String)
  | kernelException (code : KernelErrorCode) (msg : String)
  | runtime (msg : String)
deriving Repr, DecidableEq

/-- `str(e)` of an embedded exception. -/
def Exn.message : Exn → String
  | .valueError m => m
  | .kernelException _ m => m
  | .runtime m => m

/-!
## Association-list dictionaries

Both Python `dict` (used for completion settings) and `ContextVariables`
(case-insensitive keys) are insertion-ordered string maps; they differ only in
the key normalisation (`id` for `dict`, lower-casing for `ContextVariables`).
`assocFind`/`assocSet`/`assocMerge` embed lookup, point update
(replace-in-place when the key exists, append otherwise — Python dict
semantics) and `update(other)` / `merge_or_overwrite(other)` (fold the point
update over `other`'s entries).
-/

/-- Dictionary lookup under the key normalisation `norm`. -/
def assocFind (norm : String → String) : List (String × String) → String → Option String
  | [], _ => none
  | p :: rest, k => if p.1 = norm k then some p.2 else assocFind norm rest k

/-- Dictionary point update under the key normalisation `norm`: replace the
value in place when the (normalised) key is present, append otherwise. -/
def assocSet (norm : String → String) : List (String × String) → String → String → List (String × String)
  | [], k, v => [(norm k, v)]
  | p :: rest, k, v => if p.1 = norm k then (p.1, v) :: rest else p :: assocSet norm rest k v

/-- `d.update(other)` / `merge_or_overwrite(other)`: fold the point update of
each of `other`'s entries over `d`. -/
def assocMerge (norm : String → String) (d : List (String × String))
    (other : List (String × String)) : List (String × String) :=
  other.foldl (fun acc p => assocSet norm acc p.1 p.2) d

/-- A well-formed dictionary representation: keys pairwise distinct and
already in normal form (Python dicts cannot hold duplicate keys; the
`ContextVariables` store holds only lower-cased keys). -/
def AssocWF (norm : String → String) (d : List (String × String)) : Prop :=
  d.Pairwise (fun p q => p.1 ≠ q.1) ∧ ∀ p ∈ d, norm p.1 = p.1

instance (norm : String → String) (d : List (String × String)) :
    Decidable (AssocWF norm d) := by
  unfold AssocWF
  exact instDecidableAnd

/-- Python `str.lower()` as a structurally recursive function (kernel
reducible, unlike the library's byte-position recursion). -/
def lowerKey (s : String) : String := ⟨s.data.map Char.toLower⟩

/-- Plain Python `dict` of completion settings: keys are case-sensitive. -/
abbrev Settings := List (String × String)

/-- `dict` lookup. -/
def dictGet (d : Settings) (k : String) : Option String := assocFind id d k

/-- `d.update(other)` of Python dicts. -/
def dictUpdate (d other : Settings) : Settings := assocMerge id d other

/-- Modelled from the spec: `ContextVariables`
(`semantic_kernel/orchestration/context_variables.py` is not among the staged
sources): "an ordered string-keyed mutable map with a distinguished default
key", keys case-insensitive (normalised by lower-casing), "always contains a
default key (conventionally `input`)". -/
structure ContextVariables where
  entries : List (String × String)
deriving Repr, DecidableEq

/-- `ContextVariables(content)`: the constructor seeds the default key. -/
def ContextVariables.make (content : String) : ContextVariables :=
  ⟨[("input", content)]⟩

/-- `get(key)`: case-insensitive lookup, nothing for a missing key. -/
def ContextVariables.get (vars : ContextVariables) (key : String) : Option String :=
  assocFind lowerKey vars.entries key

/-- `set(key, value)`: case-insensitive point update. -/
def ContextVariables.set (vars : ContextVariables) (key value : String) : ContextVariables :=
  ⟨assocSet lowerKey vars.entries key value⟩

/-- `update(content)`: sets the default key `input`. -/
def ContextVariables.update (vars : ContextVariables) (content : String) : ContextVariables :=
  vars.set "input" content

/-- `merge_or_overwrite(other)`: right-biased merge. -/
def ContextVariables.merge_or_overwrite (vars other : ContextVariables) : ContextVariables :=
  ⟨assocMerge lowerKey vars.entries other.entries⟩

/-- The `ContextVariables` store invariant: lower-cased, duplicate-free keys.
Every store built through the operations above satisfies it. -/
def ContextVariables.WF (vars : ContextVariables) : Prop :=
  AssocWF lowerKey vars.entries

instance (vars : ContextVariables) : Decidable vars.WF := by
  unfold ContextVariables.WF
  infer_instance

/-- Opaque token standing for a `SemanticTextMemory` instance (consumed, never
inspected, by the engine). -/
abbrev Memory := Nat

/-- `NullMemory.instance`, the memory a default-constructed context gets. -/
def nullMemory : Memory := 0

/-- Opaque token standing for a `ReadOnlySkillCollectionBase` instance (the
skill registry reference; the engine only stores and forwards it). -/
abbrev ReadOnlySkillCollection := Nat

/-- Modelled from the spec: the execution context (`SKContext`,
`semantic_kernel/orchestration/sk_context.py` is not among the staged
sources): "owns one ContextVariables instance, holds a reference to a memory
accessor, an optional reference to a Skill Registry (nullable until
attached), a log sink, and a terminal error slot".  `ref` models Python
object identity: every in-place mutation keeps it, so two context values with
different `ref` cannot be the same Python object.  The log sink carries no
observable state and is omitted. -/
structure SKContext where
  ref : Nat
  /-- The source's `variables` field (`variables` is a reserved word here). -/
  vars : ContextVariables
  memory : Memory
  skills : Option ReadOnlySkillCollection
  error_occurred : Bool
  last_error_description : String
  last_exception : Option Exn
deriving Repr, DecidableEq

/-- `is_error()` read accessor. -/
def SKContext.is_error (context : SKContext) : Bool := context.error_occurred

/-- `error_description` read accessor. -/
def SKContext.error_description (context : SKContext) : String :=
  context.last_error_description

/-- Modelled from the spec: `fail(description, cause)` sets the terminal
error slot; "once `fail` is invoked the slot is set and is never cleared",
with the spec's recommended policy that the first failure's payload is
authoritative. -/
def SKContext.fail (context : SKContext) (description : String) (cause : Exn) : SKContext :=
  if context.error_occurred then context
  else { context with
          error_occurred := true
          last_error_description := description
          last_exception := some cause }

/-- Modelled from the spec: the asynchronous capability contract of a model
backend ("Chat backend: `generate_message(history, options) -> content`",
"Text backend: `complete_single(prompt, options) -> text`"); a call either
yields a completion or raises. -/
structure AIBackend where
  generate_message : List (String × String) → Settings → Except Exn String
  complete_single : String → Settings → Except Exn String

/-- Modelled from the spec: the prompt-render collaborator
("`render(context) -> string` (plain) or `render_messages(context) ->
ordered sequence of (role, content)` (chat), plus accessors to append a
user/assistant message to chat history").  A chat template carries its
mutable chat history. -/
inductive PromptTemplate where
  | plain (render : SKContext → Except Exn String)
  | chat (render_messages : SKContext → Except Exn (List (String × String)))
         (messages : List (String × String))

/-- `add_user_message` of a chat template (no-op on a plain template, which
the engine never reaches thanks to the `has_chat_prompt` guard). -/
def PromptTemplate.add_user_message : PromptTemplate → String → PromptTemplate
  | .chat render messages, content => .chat render (messages ++ [("user", content)])
  | t, _ => t

/-- `add_assistant_message` of a chat template. -/
def PromptTemplate.add_assistant_message : PromptTemplate → String → PromptTemplate
  | .chat render messages, content => .chat render (messages ++ [("assistant", content)])
  | t, _ => t

/-- Modelled from the spec: `SemanticFunctionConfig` — the prompt template
together with its declared completion settings ("requires a prompt-template
object and its declared completion settings").  `completion` embeds
`prompt_template_config.completion.__dict__`. -/
structure SemanticFunctionConfig where
  completion : Settings
  description : String
  template : PromptTemplate

/-- `function_config.has_chat_prompt`. -/
def SemanticFunctionConfig.has_chat_prompt (config : SemanticFunctionConfig) : Bool :=
  match config.template with
  | .chat _ _ => true
  | .plain _ => false

/-- The `SKFunction` object state (sk_function.py lines 30-36, 166-186).
`native_impl` stands for the composite of the stored native callable and the
delegate handler `DelegateHandlers.get_handler(self._delegate_type)` applies
to it (delegate modules are not among the staged sources; the spec describes
the handler as marshaling the context in and out of the callable):
it maps the current context to a produced context or raises.  For a semantic
function the body is the `_local_func` closure over `config`; for a native
function `config` is unused, mirroring the single `_function` slot of the
source. -/
structure SKFunction where
  is_semantic : Bool
  native_impl : SKContext → Except Exn SKContext
  config : SemanticFunctionConfig
  skill_collection : Option ReadOnlySkillCollection
  ai_backend : Option AIBackend

/-- `is_native` property (sk_function.py lines 162-164). -/
def SKFunction.is_native (fn : SKFunction) : Bool := !fn.is_semantic

/-- `_verify_is_semantic` (sk_function.py lines 282-290). -/
def SKFunction.verify_is_semantic (fn : SKFunction) : Except Exn Unit :=
  if fn.is_semantic then Except.ok ()
  else Except.error (Exn.kernelException KernelErrorCode.InvalidFunctionType
    "Invalid operation, the method requires a semantic function")

/-- `_verify_is_native` (sk_function.py lines 292-300). -/
def SKFunction.verify_is_native (fn : SKFunction) : Except Exn Unit :=
  if !fn.is_semantic then Except.ok ()
  else Except.error (Exn.kernelException KernelErrorCode.InvalidFunctionType
    "Invalid operation, the method requires a native function")

/-- `_ensure_context_has_skills` (sk_function.py lines 302-306): attach the
function's default skill collection only when the context has none. -/
def SKFunction.ensure_context_has_skills (fn : SKFunction) (context : SKContext) : SKContext :=
  if context.skills.isSome then context
  else { context with skills := fn.skill_collection }

/-- `set_ai_backend` (sk_function.py lines 194-198).  The third component
counts invocations of the backend factory (`ai_backend()` runs only after
both checks pass). -/
def SKFunction.set_ai_backend (fn : SKFunction)
    (backend_factory : Option (Unit → AIBackend)) :
    Except Exn Unit × SKFunction × Nat :=
  match backend_factory with
  | none => (Except.error (Exn.valueError "AI LLM backend factory is empty"), fn, 0)
  | some factory =>
    match fn.verify_is_semantic with
    | Except.error e => (Except.error e, fn, 0)
    | Except.ok _ => (Except.ok (), { fn with ai_backend := some (factory ()) }, 1)

/-- `set_default_skill_collection` (sk_function.py lines 188-192). -/
def SKFunction.set_default_skill_collection (fn : SKFunction)
    (skills : ReadOnlySkillCollection) : SKFunction :=
  { fn with skill_collection := some skills }

/-- The merged request settings of `_local_func` (sk_function.py lines
90-95): start from the caller's `settings` (empty when `None`), then
`request_settings.update(config_settings)` applies the template's
preconfigured completion settings on top. -/
def mergedRequestSettings (config : SemanticFunctionConfig)
    (settings : Option Settings) : Settings :=
  dictUpdate (settings.getD []) config.completion

/-- The `_local_func` closure built by `SKFunction.from_semantic_config`
(sk_function.py lines 87-129).  Returns the call's outcome, the
configuration's post-state (the chat template's history is mutated in place
in the source) and the number of model-backend calls made.  `messages[-1]`
on an empty rendering raises `IndexError("list index out of range")`, which
the handler around the body catches like every other exception. -/
def local_func (config : SemanticFunctionConfig) (client : Option AIBackend)
    (settings : Option Settings) (context : SKContext) :
    Except Exn SKContext × SemanticFunctionConfig × Nat :=
  match client with
  | none => (Except.error (Exn.valueError "AI LLM backend is empty"), config, 0)
  | some client =>
    let request_settings := mergedRequestSettings config settings
    match config.template with
    | PromptTemplate.chat render _ =>
      match render context with
      | Except.error e => (Except.ok (context.fail e.message e), config, 0)
      | Except.ok messages =>
        match client.generate_message messages request_settings with
        | Except.error e => (Except.ok (context.fail e.message e), config, 1)
        | Except.ok completion =>
          match messages.getLast? with
          | none =>
            (Except.ok (context.fail "list index out of range"
              (Exn.runtime "list index out of range")), config, 1)
          | some last =>
            let template' := (config.template.add_user_message last.2).add_assistant_message completion
            (Except.ok { context with vars := context.vars.update completion },
             { config with template := template' }, 1)
    | PromptTemplate.plain render =>
      match render context with
      | Except.error e => (Except.ok (context.fail e.message e), config, 0)
      | Except.ok prompt =>
        match client.complete_single prompt request_settings with
        | Except.error e => (Except.ok (context.fail e.message e), config, 1)
        | Except.ok completion =>
          (Except.ok { context with vars := context.vars.update completion },
           config, 1)

/-- `_invoke_semantic_async` (sk_function.py lines 256-267).  In the source
`_local_func` returns the very context object it was handed, so after the
call `context` and `new_context` alias and the final
`context.vars.merge_or_overwrite(new_context.vars)` merges the
variable map with itself. -/
def SKFunction.invoke_semantic (fn : SKFunction) (context : SKContext)
    (settings : Option Settings) :
    Except Exn SKContext × SKFunction × Nat :=
  match fn.verify_is_semantic with
  | Except.error e => (Except.error e, fn, 0)
  | Except.ok _ =>
    let context := fn.ensure_context_has_skills context
    match fn.ai_backend with
    | none => (Except.error (Exn.valueError "AI LLM backend is empty"), fn, 0)
    | some backend =>
      match local_func fn.config (some backend) settings context with
      | (Except.error e, config', n) => (Except.error e, { fn with config := config' }, n)
      | (Except.ok new_context, config', n) =>
        (Except.ok { new_context with
            vars := new_context.vars.merge_or_overwrite new_context.vars },
         { fn with config := config' }, n)

/-- `_invoke_native_async` (sk_function.py lines 269-280): the delegate
handler's output context is returned as-is. -/
def SKFunction.invoke_native (fn : SKFunction) (context : SKContext) :
    Except Exn SKContext × SKFunction × Nat :=
  match fn.verify_is_native with
  | Except.error e => (Except.error e, fn, 0)
  | Except.ok _ =>
    let context := fn.ensure_context_has_skills context
    match fn.native_impl context with
    | Except.error e => (Except.error e, fn, 0)
    | Except.ok new_context => (Except.ok new_context, fn, 0)

/-- The input-update step of `invoke_async` (sk_function.py lines 228-229):
when `input` is supplied it is written to the context's default variable. -/
def applyInput (context : SKContext) (input : Option String) : SKContext :=
  match input with
  | some s => { context with vars := context.vars.update s }
  | none => context

/-- `invoke_async` (sk_function.py lines 209-234).  With no context supplied,
`Verify.not_null(self._skill_collection, "Skill collection is empty")`
raises before a context is created or any other effect happens; otherwise a
default context is built over `NullMemory.instance`.  The third component
counts model-backend calls. -/
def SKFunction.invoke_async (fn : SKFunction) (input : Option String)
    (context : Option SKContext) (settings : Option Settings) :
    Except Exn SKContext × SKFunction × Nat :=
  match context with
  | none =>
    match fn.skill_collection with
    | none => (Except.error (Exn.valueError "Skill collection is empty"), fn, 0)
    | some skills =>
      let context : SKContext :=
        { ref := 0
          vars := ContextVariables.make ""
          memory := nullMemory
          skills := some skills
          error_occurred := false
          last_error_description := ""
          last_exception := none }
      let context := applyInput context input
      if fn.is_semantic then fn.invoke_semantic context settings
      else fn.invoke_native context
  | some context =>
    let context := applyInput context input
    if fn.is_semantic then fn.invoke_semantic context settings
    else fn.invoke_native context

/-- `invoke_with_custom_input_async` (sk_function.py lines 236-254): build a
temporary context from the given collaborators, delegate to `invoke_async`,
and catch any escaping exception into the temporary context's failure slot —
this entry point never raises. -/
def SKFunction.invoke_with_custom_input (fn : SKFunction) (input : ContextVariables)
    (memory : Memory) (skills : ReadOnlySkillCollection) :
    Except Exn SKContext × SKFunction × Nat :=
  let tmp_context : SKContext :=
    { ref := 0
      vars := input
      memory := memory
      skills := some skills
      error_occurred := false
      last_error_description := ""
      last_exception := none }
  match fn.invoke_async none (some tmp_context) none with
  | (Except.ok c, fn', n) => (Except.ok c, fn', n)
  | (Except.error e, fn', n) => (Except.ok (tmp_context.fail e.message e), fn', n)

/-!
## Lemmas about the association-list dictionaries
-/

theorem assocFind_eq_none (norm : String → String) (l : List (String × String))
    (k : String) (h : ∀ q ∈ l, q.1 ≠ norm k) : assocFind norm l k = none := by
  induction l with
  | nil => rfl
  | cons p rest ih =>
    simp only [assocFind]
    rw [if_neg (h p (List.mem_cons_self p rest))]
    exact ih fun q hq => h q (List.mem_cons.mpr (Or.inr hq))

theorem assocFind_assocSet (norm : String → String) (l : List (String × String))
    (k v k' : String) :
    assocFind norm (assocSet norm l k v) k' =
      if norm k' = norm k then some v else assocFind norm l k' := by
  induction l with
  | nil =>
    by_cases h : norm k' = norm k
    · simp [assocSet, assocFind, h]
    · simp [assocSet, assocFind, h, Ne.symm h]
  | cons p rest ih =>
    by_cases hp : p.1 = norm k
    · by_cases hk : norm k' = norm k
      · simp [assocSet, assocFind, hp, hk]
      · have hne : ¬ (norm k = norm k') := fun hh => hk hh.symm
        simp [assocSet, assocFind, hp, hk, hne]
    · by_cases hq : p.1 = norm k'
      · have hk : ¬ norm k' = norm k := fun hh => hp (hq.trans hh)
        simp [assocSet, assocFind, hp, hq, hk]
      · simp [assocSet, assocFind, hp, hq, ih]

theorem mem_assocSet (norm : String → String) (l : List (String × String))
    (k v : String) (q : String × String) (hq : q ∈ assocSet norm l k v) :
    (∃ r ∈ l, q.1 = r.1) ∨ q.1 = norm k := by
  induction l with
  | nil =>
    simp only [assocSet, List.mem_singleton] at hq
    subst hq
    right; rfl
  | cons p rest ih =>
    by_cases hp : p.1 = norm k
    · rw [assocSet, if_pos hp] at hq
      rcases List.mem_cons.mp hq with h | h
      · left; exact ⟨p, List.mem_cons_self p rest, by rw [h]⟩
      · left; exact ⟨q, List.mem_cons.mpr (Or.inr h), rfl⟩
    · rw [assocSet, if_neg hp] at hq
      rcases List.mem_cons.mp hq with h | h
      · left; exact ⟨p, List.mem_cons_self p rest, by rw [h]⟩
      · rcases ih h with ⟨r, hr, he⟩ | he
        · left; exact ⟨r, List.mem_cons.mpr (Or.inr hr), he⟩
        · right; exact he

theorem AssocWF_assocSet (norm : String → String) (l : List (String × String))
    (k v : String) (hWF : AssocWF norm l) (hk : norm (norm k) = norm k) :
    AssocWF norm (assocSet norm l k v) := by
  induction l with
  | nil =>
    refine ⟨?_, ?_⟩
    · simp [assocSet]
    · intro q hq
      simp only [assocSet, List.mem_singleton] at hq
      subst hq
      exact hk
  | cons p rest ih =>
    obtain ⟨hpair, hnorm⟩ := hWF
    rw [List.pairwise_cons] at hpair
    obtain ⟨hhead, hrest⟩ := hpair
    by_cases hp : p.1 = norm k
    · rw [assocSet, if_pos hp]
      refine ⟨?_, ?_⟩
      · rw [List.pairwise_cons]
        exact ⟨hhead, hrest⟩
      · intro q hq
        rcases List.mem_cons.mp hq with h | h
        · rw [h]
          exact hnorm p (List.mem_cons_self p rest)
        · exact hnorm q (List.mem_cons.mpr (Or.inr h))
    · rw [assocSet, if_neg hp]
      have ihWF := ih ⟨hrest, fun q hq => hnorm q (List.mem_cons.mpr (Or.inr hq))⟩
      refine ⟨?_, ?_⟩
      · rw [List.pairwise_cons]
        refine ⟨?_, ihWF.1⟩
        intro q hq
        rcases mem_assocSet norm rest k v q hq with ⟨r, hr, he⟩ | he
        · rw [he]
          exact hhead r hr
        · rw [he]
          exact hp
      · intro q hq
        rcases List.mem_cons.mp hq with h | h
        · rw [h]
          exact hnorm p (List.mem_cons_self p rest)
        · exact ihWF.2 q h

/-- The behaviour of the right-biased merge on lookups: a key of `other` gets
`other`'s value, any other key keeps `d`'s binding. -/
theorem assocFind_assocMerge (norm : String → String) (d other : List (String × String))
    (k : String) (hWF : AssocWF norm other) :
    assocFind norm (assocMerge norm d other) k =
      Option.or (assocFind norm other k) (assocFind norm d k) := by
  induction other generalizing d with
  | nil => simp [assocMerge, assocFind]
  | cons p rest ih =>
    obtain ⟨hpair, hnorm⟩ := hWF
    rw [List.pairwise_cons] at hpair
    obtain ⟨hhead, hrest⟩ := hpair
    have hWFrest : AssocWF norm rest :=
      ⟨hrest, fun q hq => hnorm q (List.mem_cons.mpr (Or.inr hq))⟩
    have hstep : assocMerge norm d (p :: rest) = assocMerge norm (assocSet norm d p.1 p.2) rest :=
      rfl
    rw [hstep, ih (assocSet norm d p.1 p.2) hWFrest]
    by_cases hk : p.1 = norm k
    · have hfind_rest : assocFind norm rest k = none := by
        apply assocFind_eq_none
        intro q hq he
        exact hhead q hq (by rw [hk, he])
      have hfind_cons : assocFind norm (p :: rest) k = some p.2 := by
        simp [assocFind, hk]
      have hnp : norm k = norm p.1 := by
        rw [hnorm p (List.mem_cons_self p rest), hk]
      rw [hfind_cons, hfind_rest, Option.none_or, assocFind_assocSet, if_pos hnp]
      simp
    · have hfind_cons : assocFind norm (p :: rest) k = assocFind norm rest k := by
        simp [assocFind, hk]
      have hnp : ¬ norm k = norm p.1 := by
        rw [hnorm p (List.mem_cons_self p rest)]
        exact fun hh => hk hh.symm
      rw [hfind_cons, assocFind_assocSet, if_neg hnp]

/-!
## Helper lemmas about the engine
-/

/-- Field-wise description of `_ensure_context_has_skills`: only the skills
slot can change, and only when it was empty. -/
theorem ensure_skills_frame_aux (fn : SKFunction) (context : SKContext) :
    (fn.ensure_context_has_skills context).skills =
      (if context.skills.isSome then context.skills else fn.skill_collection) ∧
    (fn.ensure_context_has_skills context).vars = context.vars ∧
    (fn.ensure_context_has_skills context).memory = context.memory ∧
    (fn.ensure_context_has_skills context).ref = context.ref ∧
    (fn.ensure_context_has_skills context).error_occurred = context.error_occurred ∧
    (fn.ensure_context_has_skills context).last_error_description =
      context.last_error_description ∧
    (fn.ensure_context_has_skills context).last_exception = context.last_exception := by
  unfold SKFunction.ensure_context_has_skills
  by_cases h : context.skills.isSome <;> simp [h]

/-- `fail` mutates the error slot in place: the identity token survives. -/
theorem fail_ref (context : SKContext) (d : String) (e : Exn) :
    (context.fail d e).ref = context.ref := by
  unfold SKContext.fail
  split <;> rfl

/-!
## The claims
-/

/-- C7: `merge_or_overwrite` on `ContextVariables` is right-biased: for every
pair of variable maps and every key present in both, the merged map holds the
second (other) map's value for that key, and every key present in only one of
the two maps is preserved with its value. -/
theorem merge_or_overwrite_right_biased (vars other : ContextVariables) (k : String)
    (hWF : other.WF) :
    (∀ v, other.get k = some v → (vars.merge_or_overwrite other).get k = some v) ∧
    (other.get k = none → (vars.merge_or_overwrite other).get k = vars.get k) := by
  have h : (vars.merge_or_overwrite other).get k =
      Option.or (other.get k) (vars.get k) :=
    assocFind_assocMerge lowerKey vars.entries other.entries k hWF
  constructor
  · intro v hv
    rw [h, hv]
    rfl
  · intro hv
    rw [h, hv]
    exact Option.none_or

/-- Witness for C7 at concrete maps: the duplicate key `a` takes the second
map's value, a key only in the first map keeps its value. -/
theorem merge_or_overwrite_right_biased_witness :
    ((⟨[("a", "1"), ("input", "")]⟩ : ContextVariables).merge_or_overwrite
        ⟨[("a", "2"), ("b", "3")]⟩).get "a" = some "2" ∧
    ((⟨[("a", "1"), ("input", "")]⟩ : ContextVariables).merge_or_overwrite
        ⟨[("x", "9")]⟩).get "a" = some "1" := by
  constructor
  · exact (merge_or_overwrite_right_biased ⟨[("a", "1"), ("input", "")]⟩
      ⟨[("a", "2"), ("b", "3")]⟩ "a" (by decide)).1 "2" (by decide)
  · exact (merge_or_overwrite_right_biased ⟨[("a", "1"), ("input", "")]⟩
      ⟨[("x", "9")]⟩ "a" (by decide)).2 (by decide)

/-- C1 (amended): the settings dictionary passed to the model backend is the
caller's settings updated with the template's preconfigured completion
settings, so for every key present in both the TEMPLATE's value takes
precedence, and keys present only in the caller's settings are preserved. -/
theorem merged_settings_template_biased (config : SemanticFunctionConfig)
    (settings : Option Settings) (k : String)
    (hWF : AssocWF id config.completion) :
    (∀ v, dictGet config.completion k = some v →
        dictGet (mergedRequestSettings config settings) k = some v) ∧
    (dictGet config.completion k = none →
        dictGet (mergedRequestSettings config settings) k =
          dictGet (settings.getD []) k) := by
  have h : dictGet (mergedRequestSettings config settings) k =
      Option.or (dictGet config.completion k) (dictGet (settings.getD []) k) :=
    assocFind_assocMerge id (settings.getD []) config.completion k hWF
  constructor
  · intro v hv
    rw [h, hv]
    rfl
  · intro hv
    rw [h, hv]
    exact Option.none_or

/-- Witness for the amended C1: with template completion `temperature = 0.2`
and caller settings `temperature = 0.9, top_p = 1`, the merged dictionary
holds the template's `0.2` and the caller-only `top_p = 1`. -/
theorem merged_settings_template_biased_witness :
    dictGet (mergedRequestSettings
      ⟨[("temperature", "0.2")], "d", PromptTemplate.plain (fun _ => Except.ok "")⟩
      (some [("temperature", "0.9"), ("top_p", "1")])) "temperature" = some "0.2" ∧
    dictGet (mergedRequestSettings
      ⟨[("temperature", "0.2")], "d", PromptTemplate.plain (fun _ => Except.ok "")⟩
      (some [("temperature", "0.9"), ("top_p", "1")])) "top_p" = some "1" := by
  constructor
  · exact (merged_settings_template_biased
      ⟨[("temperature", "0.2")], "d", PromptTemplate.plain (fun _ => Except.ok "")⟩
      (some [("temperature", "0.9"), ("top_p", "1")]) "temperature" (by decide)).1 "0.2" rfl
  · exact (merged_settings_template_biased
      ⟨[("temperature", "0.2")], "d", PromptTemplate.plain (fun _ => Except.ok "")⟩
      (some [("temperature", "0.9"), ("top_p", "1")]) "top_p" (by decide)).2 rfl

/-- C1 counterexample: the claim says the CALLER's value wins for a duplicate
key.  With template completion `temperature = 0.2` and caller settings
`temperature = 0.9`, a backend that echoes the `temperature` it actually
received puts `0.2` — the template's value, not the caller's `0.9` — into
the context's default variable. -/
theorem merged_settings_caller_biased_counterexample :
    (((SKFunction.mk true (fun c => Except.ok c)
        ⟨[("temperature", "0.2")], "d", PromptTemplate.plain (fun _ => Except.ok "PROMPT")⟩
        none
        (some ⟨fun _ _ => Except.error (Exn.runtime "unused"),
               fun _ s => Except.ok ((dictGet s "temperature").getD "absent")⟩)).invoke_async
        none
        (some ⟨1, ⟨[("input", "")]⟩, 0, some 7, false, "", none⟩)
        (some [("temperature", "0.9")])).1.map (fun c => c.vars.get "input")) =
      Except.ok (some "0.2") ∧ "0.2" ≠ "0.9" := by
  constructor
  · rfl
  · decide

/-- C8: during an invocation the engine attaches the function's default
skill registry to the execution context only if the context has none; a
context that already has a registry keeps it, and every other field of the
context is untouched by the attachment step. -/
theorem ensure_context_has_skills_attach_once (fn : SKFunction) (context : SKContext) :
    (fn.ensure_context_has_skills context).skills =
      (if context.skills.isSome then context.skills else fn.skill_collection) ∧
    (fn.ensure_context_has_skills context).vars = context.vars ∧
    (fn.ensure_context_has_skills context).memory = context.memory ∧
    (fn.ensure_context_has_skills context).ref = context.ref ∧
    (fn.ensure_context_has_skills context).error_occurred = context.error_occurred ∧
    (fn.ensure_context_has_skills context).last_error_description =
      context.last_error_description ∧
    (fn.ensure_context_has_skills context).last_exception = context.last_exception :=
  ensure_skills_frame_aux fn context

/-- C9: calling `set_ai_backend` on a native function raises
`KernelException` with code `InvalidFunctionType` before the factory is
called (the factory runs zero times), and the function — its backend slot
included — is left unchanged. -/
theorem set_ai_backend_on_native (fn : SKFunction) (factory : Unit → AIBackend)
    (h : fn.is_semantic = false) :
    fn.set_ai_backend (some factory) =
      (Except.error (Exn.kernelException KernelErrorCode.InvalidFunctionType
        "Invalid operation, the method requires a semantic function"), fn, 0) := by
  simp [SKFunction.set_ai_backend, SKFunction.verify_is_semantic, h]

/-- Witness for C9 at a concrete native function. -/
theorem set_ai_backend_on_native_witness :
    (SKFunction.mk false (fun c => Except.ok c)
        ⟨[], "", PromptTemplate.plain (fun _ => Except.ok "")⟩ none none).set_ai_backend
      (some (fun _ => ⟨fun _ _ => Except.ok "", fun _ _ => Except.ok ""⟩)) =
      (Except.error (Exn.kernelException KernelErrorCode.InvalidFunctionType
        "Invalid operation, the method requires a semantic function"),
       SKFunction.mk false (fun c => Except.ok c)
        ⟨[], "", PromptTemplate.plain (fun _ => Except.ok "")⟩ none none, 0) :=
  set_ai_backend_on_native _ _ rfl

/-- C6: invoking a function that has no default skill registry with no
context fails before any side effect: no context is created, no input is
written, no body or backend runs — the error is returned with the function
object unchanged and zero backend calls. -/
theorem invoke_async_no_context_no_registry (fn : SKFunction) (input : Option String)
    (settings : Option Settings) (h : fn.skill_collection = none) :
    fn.invoke_async input none settings =
      (Except.error (Exn.valueError "Skill collection is empty"), fn, 0) := by
  simp [SKFunction.invoke_async, h]

/-- Witness for C6 at a concrete registry-less function. -/
theorem invoke_async_no_context_no_registry_witness :
    (SKFunction.mk false (fun c => Except.ok c)
        ⟨[], "", PromptTemplate.plain (fun _ => Except.ok "")⟩ none none).invoke_async
      (some "abc") none none =
      (Except.error (Exn.valueError "Skill collection is empty"),
       SKFunction.mk false (fun c => Except.ok c)
        ⟨[], "", PromptTemplate.plain (fun _ => Except.ok "")⟩ none none, 0) :=
  invoke_async_no_context_no_registry _ (some "abc") none rfl

/-- C3: a semantic function with no bound backend fails with the
backend-not-configured error on every `invoke_async` call that can reach the
semantic path (a context is supplied, or a default registry lets one be
built), before any backend call is attempted: the backend call count is
zero. -/
theorem invoke_async_no_backend (fn : SKFunction) (input : Option String)
    (context : Option SKContext) (settings : Option Settings)
    (h1 : fn.is_semantic = true) (h2 : fn.ai_backend = none)
    (h3 : context.isSome ∨ fn.skill_collection.isSome) :
    (fn.invoke_async input context settings).1 =
      Except.error (Exn.valueError "AI LLM backend is empty") ∧
    (fn.invoke_async input context settings).2.2 = 0 := by
  have core : ∀ c : SKContext, fn.invoke_semantic c settings =
      (Except.error (Exn.valueError "AI LLM backend is empty"), fn, 0) := by
    intro c
    simp [SKFunction.invoke_semantic, SKFunction.verify_is_semantic, h1, h2]
  rcases context with _ | c
  · rcases h3 with h3 | h3
    · simp at h3
    · obtain ⟨s, hs⟩ := Option.isSome_iff_exists.mp h3
      simp [SKFunction.invoke_async, hs, h1, core]
  · simp [SKFunction.invoke_async, h1, core]

/-- Witness for C3 at a concrete backend-less semantic function. -/
theorem invoke_async_no_backend_witness :
    ((SKFunction.mk true (fun c => Except.ok c)
        ⟨[], "", PromptTemplate.plain (fun _ => Except.ok "")⟩ none none).invoke_async
      none (some ⟨0, ⟨[("input", "")]⟩, 0, some 1, false, "", none⟩) none).1 =
      Except.error (Exn.valueError "AI LLM backend is empty") ∧
    ((SKFunction.mk true (fun c => Except.ok c)
        ⟨[], "", PromptTemplate.plain (fun _ => Except.ok "")⟩ none none).invoke_async
      none (some ⟨0, ⟨[("input", "")]⟩, 0, some 1, false, "", none⟩) none).2.2 = 0 :=
  invoke_async_no_backend _ none (some _) none rfl rfl (Or.inl rfl)

/-- C2: for a native function whose body always raises `e`, `invoke_async`
lets `e` propagate uncaught to the caller, while
`invoke_with_custom_input_async` never raises: the escaping exception is
recorded in the returned context's failure slot, so `is_error() = true` and
`error_description` equals the exception's message. -/
theorem native_error_propagation (fn : SKFunction) (e : Exn) (context : SKContext)
    (input : Option String) (settings : Option Settings)
    (vars : ContextVariables) (memory : Memory) (skills : ReadOnlySkillCollection)
    (h1 : fn.is_semantic = false)
    (h2 : ∀ c, fn.native_impl c = Except.error e) :
    (fn.invoke_async input (some context) settings).1 = Except.error e ∧
    ∃ c', (fn.invoke_with_custom_input vars memory skills).1 = Except.ok c' ∧
      c'.is_error = true ∧ c'.error_description = e.message := by
  have core : ∀ c : SKContext, fn.invoke_native c = (Except.error e, fn, 0) := by
    intro c
    simp [SKFunction.invoke_native, SKFunction.verify_is_native, h1, h2]
  constructor
  · simp [SKFunction.invoke_async, h1, core]
  · have h4 : fn.invoke_async none
        (some (SKContext.mk 0 vars memory (some skills) false "" none)) none =
        (Except.error e, fn, 0) := by
      simp [SKFunction.invoke_async, h1, core]
    exact ⟨(SKContext.mk 0 vars memory (some skills) false "" none).fail e.message e,
      by simp [SKFunction.invoke_with_custom_input, h4], rfl, rfl⟩

/-- Witness for C2 at a concrete always-raising native function. -/
theorem native_error_propagation_witness :
    ((SKFunction.mk false (fun _ => Except.error (Exn.runtime "boom"))
        ⟨[], "", PromptTemplate.plain (fun _ => Except.ok "")⟩ none none).invoke_async
      none (some ⟨0, ⟨[("input", "")]⟩, 0, some 1, false, "", none⟩) none).1 =
      Except.error (Exn.runtime "boom") ∧
    ∃ c', ((SKFunction.mk false (fun _ => Except.error (Exn.runtime "boom"))
        ⟨[], "", PromptTemplate.plain (fun _ => Except.ok "")⟩ none none).invoke_with_custom_input
      ⟨[("input", "x")]⟩ 0 1).1 = Except.ok c' ∧
      c'.is_error = true ∧ c'.error_description = (Exn.runtime "boom").message :=
  native_error_propagation _ _ _ none none _ 0 1 rfl (fun _ => rfl)

/-- C4: during a semantic invocation, an exception `e` raised while
rendering the prompt (plain or chat) or while calling the model backend is
caught and converted into `context.fail(str(e), e)`: the invocation returns
the now-failed context normally instead of raising, with `is_error` set,
`error_description = str(e)` and the exception recorded as the cause. -/
theorem semantic_errors_captured (fn : SKFunction) (backend : AIBackend)
    (context : SKContext) (settings : Option Settings) (e : Exn)
    (h1 : fn.is_semantic = true) (h2 : fn.ai_backend = some backend)
    (h3 : context.error_occurred = false)
    (h4 : (∃ render, fn.config.template = PromptTemplate.plain render ∧
            render (fn.ensure_context_has_skills context) = Except.error e) ∨
          (∃ render prompt, fn.config.template = PromptTemplate.plain render ∧
            render (fn.ensure_context_has_skills context) = Except.ok prompt ∧
            backend.complete_single prompt (mergedRequestSettings fn.config settings) =
              Except.error e) ∨
          (∃ render history, fn.config.template = PromptTemplate.chat render history ∧
            render (fn.ensure_context_has_skills context) = Except.error e) ∨
          (∃ render history messages,
            fn.config.template = PromptTemplate.chat render history ∧
            render (fn.ensure_context_has_skills context) = Except.ok messages ∧
            backend.generate_message messages (mergedRequestSettings fn.config settings) =
              Except.error e)) :
    ∃ c', (fn.invoke_async none (some context) settings).1 = Except.ok c' ∧
      c'.is_error = true ∧ c'.error_description = e.message ∧
      c'.last_exception = some e := by
  have hlocal : ∃ n, local_func fn.config (some backend) settings
      (fn.ensure_context_has_skills context) =
      (Except.ok ((fn.ensure_context_has_skills context).fail e.message e),
        fn.config, n) := by
    rcases h4 with ⟨render, ht, hr⟩ | ⟨render, prompt, ht, hr, hb⟩ |
      ⟨render, history, ht, hr⟩ | ⟨render, history, messages, ht, hr, hb⟩
    · exact ⟨0, by simp [local_func, ht, hr]⟩
    · exact ⟨1, by simp [local_func, ht, hr, hb]⟩
    · exact ⟨0, by simp [local_func, ht, hr]⟩
    · exact ⟨1, by simp [local_func, ht, hr, hb]⟩
  obtain ⟨n, hlocal⟩ := hlocal
  have herr : (fn.ensure_context_has_skills context).error_occurred = false :=
    ((ensure_skills_frame_aux fn context).2.2.2.2.1).trans h3
  have hfields :
      ((fn.ensure_context_has_skills context).fail e.message e).error_occurred = true ∧
      ((fn.ensure_context_has_skills context).fail e.message e).last_error_description =
        e.message ∧
      ((fn.ensure_context_has_skills context).fail e.message e).last_exception = some e := by
    unfold SKContext.fail
    rw [herr]
    simp
  have hinv : (fn.invoke_async none (some context) settings).1 =
      Except.ok { (fn.ensure_context_has_skills context).fail e.message e with
        vars := ((fn.ensure_context_has_skills context).fail e.message e).vars.merge_or_overwrite
          ((fn.ensure_context_has_skills context).fail e.message e).vars } := by
    simp [SKFunction.invoke_async, applyInput, h1, SKFunction.invoke_semantic,
      SKFunction.verify_is_semantic, h2, hlocal]
  exact ⟨_, hinv, hfields.1, hfields.2.1, hfields.2.2⟩

/-- Witness for C4 at a concrete semantic function whose prompt rendering
raises. -/
theorem semantic_errors_captured_witness :
    ∃ c', ((SKFunction.mk true (fun c => Except.ok c)
        ⟨[], "d", PromptTemplate.plain (fun _ => Except.error (Exn.runtime "render failed"))⟩
        none
        (some ⟨fun _ _ => Except.ok "", fun _ _ => Except.ok ""⟩)).invoke_async
      none (some ⟨0, ⟨[("input", "")]⟩, 0, some 1, false, "", none⟩) none).1 =
        Except.ok c' ∧
      c'.is_error = true ∧
      c'.error_description = (Exn.runtime "render failed").message ∧
      c'.last_exception = some (Exn.runtime "render failed") :=
  semantic_errors_captured _ _ _ none (Exn.runtime "render failed") rfl rfl rfl
    (Or.inl ⟨fun _ => Except.error (Exn.runtime "render failed"), rfl, rfl⟩)

/-- C5: a chat-style semantic invocation appends exactly one user message
(the content of the last rendered message) and then exactly one assistant
message (the backend's reply), in that order, to the chat history held by
the template, and writes the reply into the context's default variable. -/
theorem chat_invocation_appends (fn : SKFunction) (backend : AIBackend)
    (context : SKContext) (settings : Option Settings)
    (render : SKContext → Except Exn (List (String × String)))
    (history messages : List (String × String)) (last : String × String) (reply : String)
    (h1 : fn.is_semantic = true) (h2 : fn.ai_backend = some backend)
    (h3 : fn.config.template = PromptTemplate.chat render history)
    (h4 : render (fn.ensure_context_has_skills context) = Except.ok messages)
    (h5 : messages.getLast? = some last)
    (h6 : backend.generate_message messages (mergedRequestSettings fn.config settings) =
      Except.ok reply)
    (h7 : context.vars.WF) :
    ∃ c', (fn.invoke_async none (some context) settings).1 = Except.ok c' ∧
      c'.vars.get "input" = some reply ∧
      (fn.invoke_async none (some context) settings).2.1.config.template =
        PromptTemplate.chat render (history ++ [("user", last.2), ("assistant", reply)]) := by
  have hlocal : local_func fn.config (some backend) settings
      (fn.ensure_context_has_skills context) =
      (Except.ok { fn.ensure_context_has_skills context with
          vars := (fn.ensure_context_has_skills context).vars.update reply },
        { fn.config with template := (PromptTemplate.chat render
            (history ++ [("user", last.2), ("assistant", reply)])) }, 1) := by
    simp [local_func, h3, h4, h5, h6, PromptTemplate.add_user_message,
      PromptTemplate.add_assistant_message]
  have hvars_ensure : (fn.ensure_context_has_skills context).vars = context.vars :=
    (ensure_skills_frame_aux fn context).2.1
  have hWFupd : (context.vars.update reply).WF :=
    AssocWF_assocSet lowerKey context.vars.entries "input" reply h7 rfl
  have hget : ((context.vars.update reply).merge_or_overwrite
      (context.vars.update reply)).get "input" = some reply := by
    have hs : (context.vars.update reply).get "input" = some reply := by
      show assocFind lowerKey (assocSet lowerKey context.vars.entries "input" reply)
        "input" = some reply
      rw [assocFind_assocSet]
      simp
    have hm := assocFind_assocMerge lowerKey (context.vars.update reply).entries
      (context.vars.update reply).entries "input" hWFupd
    show assocFind lowerKey (assocMerge lowerKey (context.vars.update reply).entries
      (context.vars.update reply).entries) "input" = some reply
    rw [hm]
    rw [show assocFind lowerKey (context.vars.update reply).entries "input" = some reply
      from hs]
    rfl
  refine ⟨{ fn.ensure_context_has_skills context with
      vars := ((fn.ensure_context_has_skills context).vars.update reply).merge_or_overwrite
        ((fn.ensure_context_has_skills context).vars.update reply) }, ?_, ?_, ?_⟩
  · simp [SKFunction.invoke_async, applyInput, h1, SKFunction.invoke_semantic,
      SKFunction.verify_is_semantic, h2, hlocal]
  · show (((fn.ensure_context_has_skills context).vars.update reply).merge_or_overwrite
      ((fn.ensure_context_has_skills context).vars.update reply)).get "input" = some reply
    rw [hvars_ensure]
    exact hget
  · simp [SKFunction.invoke_async, applyInput, h1, SKFunction.invoke_semantic,
      SKFunction.verify_is_semantic, h2, hlocal]

/-- Witness for C5 at a concrete chat-style semantic function. -/
theorem chat_invocation_appends_witness :
    ∃ c', ((SKFunction.mk true (fun c => Except.ok c)
        ⟨[], "d", PromptTemplate.chat
          (fun _ => Except.ok [("system", "s"), ("user", "hi")]) [("system", "s0")]⟩
        none
        (some ⟨fun _ _ => Except.ok "REPLY", fun _ _ => Except.ok ""⟩)).invoke_async
      none (some ⟨0, ⟨[("input", "")]⟩, 0, some 1, false, "", none⟩) none).1 =
        Except.ok c' ∧
      c'.vars.get "input" = some "REPLY" ∧
      (((SKFunction.mk true (fun c => Except.ok c)
        ⟨[], "d", PromptTemplate.chat
          (fun _ => Except.ok [("system", "s"), ("user", "hi")]) [("system", "s0")]⟩
        none
        (some ⟨fun _ _ => Except.ok "REPLY", fun _ _ => Except.ok ""⟩)).invoke_async
      none (some ⟨0, ⟨[("input", "")]⟩, 0, some 1, false, "", none⟩) none)).2.1.config.template =
        PromptTemplate.chat (fun _ => Except.ok [("system", "s"), ("user", "hi")])
          ([("system", "s0")] ++ [("user", "hi"), ("assistant", "REPLY")]) :=
  chat_invocation_appends _ _ _ none _ [("system", "s0")]
    [("system", "s"), ("user", "hi")] ("user", "hi") "REPLY"
    rfl rfl rfl rfl rfl rfl (by decide)

/-- The input-update step mutates the context in place: identity preserved. -/
theorem applyInput_ref (context : SKContext) (input : Option String) :
    (applyInput context input).ref = context.ref := by
  cases input <;> rfl

/-- `_local_func` only ever mutates the context it was handed: a context it
returns successfully carries the identity token of its argument. -/
theorem local_func_ref (config : SemanticFunctionConfig) (client : Option AIBackend)
    (settings : Option Settings) (context c' : SKContext)
    (h : (local_func config client settings context).1 = Except.ok c') :
    c'.ref = context.ref := by
  rcases client with _ | client
  · simp [local_func] at h
  · rcases htempl : config.template with render | ⟨render, history⟩
    · rcases hr : render context with e | prompt
      · simp [local_func, htempl, hr] at h
        rw [← h]
        exact fail_ref context e.message e
      · rcases hb : client.complete_single prompt (mergedRequestSettings config settings)
          with e | completion
        · simp [local_func, htempl, hr, hb] at h
          rw [← h]
          exact fail_ref context e.message e
        · simp [local_func, htempl, hr, hb] at h
          rw [← h]
    · rcases hr : render context with e | messages
      · simp [local_func, htempl, hr] at h
        rw [← h]
        exact fail_ref context e.message e
      · rcases hb : client.generate_message messages (mergedRequestSettings config settings)
          with e | completion
        · simp [local_func, htempl, hr, hb] at h
          rw [← h]
          exact fail_ref context e.message e
        · rcases hlast : messages.getLast? with _ | last
          · simp [local_func, htempl, hr, hb, hlast] at h
            rw [← h]
            exact fail_ref context _ _
          · simp [local_func, htempl, hr, hb, hlast] at h
            rw [← h]

/-- The semantic path hands back the context it was given: the returned
context carries the supplied context's identity token. -/
theorem invoke_semantic_ref (fn : SKFunction) (context : SKContext)
    (settings : Option Settings) (c' : SKContext)
    (h : (fn.invoke_semantic context settings).1 = Except.ok c') :
    c'.ref = context.ref := by
  cases hv : fn.verify_is_semantic with
  | error e =>
    have hred : (fn.invoke_semantic context settings).1 = Except.error e := by
      simp [SKFunction.invoke_semantic, hv]
    rw [hred] at h
    exact absurd h (by simp)
  | ok u =>
    cases hb : fn.ai_backend with
    | none =>
      have hred : (fn.invoke_semantic context settings).1 =
          Except.error (Exn.valueError "AI LLM backend is empty") := by
        simp [SKFunction.invoke_semantic, hv, hb]
      rw [hred] at h
      exact absurd h (by simp)
    | some backend =>
      rcases hl : local_func fn.config (some backend) settings
          (fn.ensure_context_has_skills context) with ⟨res, config', n⟩
      rcases res with e | newc
      · have hred : (fn.invoke_semantic context settings).1 = Except.error e := by
          simp [SKFunction.invoke_semantic, hv, hb, hl]
        rw [hred] at h
        exact absurd h (by simp)
      · have hred : (fn.invoke_semantic context settings).1 =
            Except.ok { newc with vars := newc.vars.merge_or_overwrite newc.vars } := by
          simp [SKFunction.invoke_semantic, hv, hb, hl]
        rw [hred] at h
        simp only [Except.ok.injEq] at h
        have h2 : newc.ref = (fn.ensure_context_has_skills context).ref :=
          local_func_ref fn.config (some backend) settings
            (fn.ensure_context_has_skills context) newc (by rw [hl])
        rw [← h]
        exact h2.trans ((ensure_skills_frame_aux fn context).2.2.2.1)

/-- C10: with a supplied context, the semantic path of `invoke_async`
returns the very context object that was supplied — mutated in place, its
identity token preserved — while the native path returns the delegate
handler's output (exception or replacement context) exactly as produced. -/
theorem invoke_returns_supplied_context (fn : SKFunction) (input : Option String)
    (context : SKContext) (settings : Option Settings) (c' : SKContext) :
    (fn.is_semantic = true →
      (fn.invoke_async input (some context) settings).1 = Except.ok c' →
      c'.ref = context.ref) ∧
    (fn.is_semantic = false →
      (fn.invoke_async input (some context) settings).1 =
        fn.native_impl (fn.ensure_context_has_skills (applyInput context input))) := by
  constructor
  · intro hsem hok
    have hred : (fn.invoke_async input (some context) settings).1 =
        (fn.invoke_semantic (applyInput context input) settings).1 := by
      simp [SKFunction.invoke_async, hsem]
    rw [hred] at hok
    have := invoke_semantic_ref fn (applyInput context input) settings c' hok
    rw [this]
    exact applyInput_ref context input
  · intro hnat
    have hN : ∀ ctx : SKContext, (fn.invoke_native ctx).1 =
        fn.native_impl (fn.ensure_context_has_skills ctx) := by
      intro ctx
      unfold SKFunction.invoke_native
      have hv : fn.verify_is_native = Except.ok () := by
        simp [SKFunction.verify_is_native, hnat]
      rw [hv]
      rcases hi : fn.native_impl (fn.ensure_context_has_skills ctx) with e | c
      · simp [hi]
      · simp [hi]
    have hred : (fn.invoke_async input (some context) settings).1 =
        (fn.invoke_native (applyInput context input)).1 := by
      simp [SKFunction.invoke_async, hnat]
    rw [hred]
    exact hN (applyInput context input)
